import Mathlib

/-!
Shallow embedding of the relative-pointer addressing layer, descriptor and
metadata decoding, value-witness flag decoding, and mangled-symbol scanning
of the swift-bindgen crates (`swift-sys` and `swift-rt`).

Machine integers are modelled as `Nat` (unsigned words) or `Int` (signed
offsets and addresses); memory is modelled as explicit load functions.
-/

namespace SwiftBindgen

/-! ## `ContextDescriptorKind` (swift-sys/src/ctx_desc/kind.rs)

A kind is a `u8` restricted to the low five bits; we carry the raw value. -/

namespace ContextDescriptorKind

def MODULE : Nat := 0
def EXTENSION : Nat := 1
def ANONYMOUS : Nat := 2
def PROTOCOL : Nat := 3
def OPAQUE_TYPE : Nat := 4
def TYPE_FIRST : Nat := 16
def TYPE_LAST : Nat := 31
def CLASS : Nat := TYPE_FIRST
def STRUCT : Nat := TYPE_FIRST + 1
def ENUM : Nat := TYPE_FIRST + 2

/-- `ContextDescriptorKind::is_type`. -/
def is_type (k : Nat) : Bool := decide (TYPE_FIRST ≤ k) && decide (k ≤ TYPE_LAST)

end ContextDescriptorKind

/-! ## `ContextDescriptorFlags` (swift-sys/src/ctx_desc/flags.rs)

The flags word is a `u32`; every operation below is the direct translation of
the corresponding Rust `const fn`, with `u32` values carried as `Nat`
(all masks keep results below `2^32` when the inputs are). -/

namespace ContextDescriptorFlags

/-- `ContextDescriptorFlags::empty`. -/
def empty : Nat := 0

/-- `ContextDescriptorFlags::kind`: `(bits & 0x1F) as u8`. -/
def kind (bits : Nat) : Nat := bits &&& 0x1F

/-- `ContextDescriptorFlags::is_generic`: `bits & 0x80 != 0`. -/
def is_generic (bits : Nat) : Bool := bits &&& 0x80 != 0

/-- `ContextDescriptorFlags::is_unique`: `bits & 0x40 != 0`. -/
def is_unique (bits : Nat) : Bool := bits &&& 0x40 != 0

/-- `ContextDescriptorFlags::version`: `(bits >> 8) as u8`. -/
def version (bits : Nat) : Nat := (bits >>> 8) % 256

/-- `ContextDescriptorFlags::kind_specific_flags`: `(bits >> 16) as u16`. -/
def kind_specific_flags (bits : Nat) : Nat := (bits >>> 16) % 65536

/-- `ContextDescriptorFlags::with_kind`:
`(bits & 0xFFFFFFE0) | kind.value() as u32`. -/
def with_kind (bits k : Nat) : Nat := (bits &&& 0xFFFFFFE0) ||| k

/-- `ContextDescriptorFlags::with_generic`:
`(bits & 0xFFFFFF7F) | (0x80 * is_generic as u32)`. -/
def with_generic (bits : Nat) (g : Bool) : Nat :=
  (bits &&& 0xFFFFFF7F) ||| (0x80 * (if g then 1 else 0))

/-- `ContextDescriptorFlags::with_unique`:
`(bits & 0xFFFFFFBF) | (0x40 * is_unique as u32)`. -/
def with_unique (bits : Nat) (u : Bool) : Nat :=
  (bits &&& 0xFFFFFFBF) ||| (0x40 * (if u then 1 else 0))

/-- `ContextDescriptorFlags::with_version`:
`(bits & 0xFFFF00FF) | ((version as u32) << 8)`. -/
def with_version (bits v : Nat) : Nat := (bits &&& 0xFFFF00FF) ||| (v <<< 8)

/-- `ContextDescriptorFlags::with_kind_specific_flags`:
`(bits & 0xFFFF0000) | ((flags as u32) << 16)` — note the mask as written
in the source keeps the HIGH 16 bits and clears the low 16. -/
def with_kind_specific_flags (bits f : Nat) : Nat :=
  (bits &&& 0xFFFF0000) ||| (f <<< 16)

/-- `ContextDescriptorFlags::new`: chained `with_*` calls on `empty`. -/
def new (k : Nat) (g u : Bool) (v ksf : Nat) : Nat :=
  with_kind_specific_flags (with_version (with_unique (with_generic (with_kind empty k) g) u) v) ksf

end ContextDescriptorFlags

/-! ## `ValueWitnessFlags` (swift-sys/src/metadata/value_witness/flags.rs) -/

namespace ValueWitnessFlags

def AlignmentMask : Nat := 0x000000FF
def IsNonPOD : Nat := 0x00010000
def IsNonInline : Nat := 0x00020000
def HasSpareBits : Nat := 0x00080000
def IsNonBitwiseTakable : Nat := 0x00100000
def HasEnumWitnesses : Nat := 0x00200000
def Incomplete : Nat := 0x00400000

/-- `ValueWitnessFlags::align_mask`: `(bits & AlignmentMask) as usize`. -/
def align_mask (bits : Nat) : Nat := bits &&& AlignmentMask

/-- `ValueWitnessFlags::align`: `align_mask() + 1`. -/
def align (bits : Nat) : Nat := align_mask bits + 1

/-- `ValueWitnessFlags::is_pod`: `(bits & IsNonPOD) == 0`. -/
def is_pod (bits : Nat) : Bool := bits &&& IsNonPOD == 0

/-- `ValueWitnessFlags::has_enum_witnesses`: `(bits & HasEnumWitnesses) != 0`. -/
def has_enum_witnesses (bits : Nat) : Bool := bits &&& HasEnumWitnesses != 0

end ValueWitnessFlags

/-! ## `MetadataKind` and `Metadata` word decoding
(swift-sys/src/metadata/kind.rs, swift-sys/src/metadata/metadata.rs)

The leading metadata word is a `usize`; we carry it as `Nat`.  The null
pointer is address `0`. -/

namespace MetadataKind

/-- `MetadataKind::LAST`: the largest non-isa-pointer kind value. -/
def LAST : Nat := 0x7FF

/-- `MetadataKind::CLASS = 0`. -/
def CLASS : Nat := 0

end MetadataKind

namespace Metadata

/-- `Metadata::kind`: `if kind <= LAST then kind else CLASS`. -/
def kind (word : Nat) : Nat :=
  if word ≤ MetadataKind.LAST then word else MetadataKind.CLASS

/-- `Metadata::isa_ptr`: the word itself when above `LAST`, else null. -/
def isa_ptr (word : Nat) : Nat :=
  if word > MetadataKind.LAST then word else 0

/-- `Metadata::value_witness_table_ptr`:
`this.cast::<*const ValueWitnessTable>().wrapping_sub(1)`, i.e. the metadata
address minus one pointer width in bytes. -/
def value_witness_table_ptr (ptrSize : Nat) (this : Int) : Int :=
  this - (ptrSize : Int)

/-- `Metadata::enum_value_witnesses` (swift-rt/src/metadata/metadata.rs):
load the table pointer from the word preceding the metadata; `None` when it
is null or its flags lack enum witnesses, otherwise the table address
reinterpreted as an `EnumValueWitnessTable`.
`load` models a pointer-sized load; `flagsOf` models reading the `flags`
field of the `ValueWitnessTable` at a given address. -/
def enum_value_witnesses (ptrSize : Nat) (load : Int → Int) (flagsOf : Int → Nat)
    (selfAddr : Int) : Option Int :=
  let ptr := value_witness_table_ptr ptrSize selfAddr
  let table_ptr := load ptr
  if table_ptr = 0 then none
  else if ValueWitnessFlags.has_enum_witnesses (flagsOf table_ptr) then some table_ptr
  else none

end Metadata

/-! ## Relative pointers (swift-sys/src/ptr/relative_direct.rs,
swift-sys/src/ptr/relative_indirectable.rs)

Addresses are modelled as `Int`; the null pointer is address `0`.  The
stored offset is an `i32` carried as `Int` (its value).  `offset & !1` on a
two's-complement integer clears the low bit, i.e. maps the value to
`o - o.emod 2`; `offset & 1` is the parity `o.emod 2`.  A load of a
pointer-sized word is a function `Int → Int`.  The `assert!` on
`align_of::<T>() < 2` is a panic in every build profile and is modelled as
`Except.error`; a successful resolution returns the address of the referent
(`Option` for the nullable variant). -/

namespace RelativeDirectPointer

/-- `RelativeDirectPointer::is_null`: `offset == 0`. -/
def is_null (offset : Int) : Bool := offset == 0

/-- `RelativeDirectPointer::as_ptr`: null when the offset is zero, else the
storage address plus the offset. -/
def as_ptr (selfAddr offset : Int) : Int :=
  if is_null offset then 0 else selfAddr + offset

/-- `RelativeDirectPointer::as_ref`: `self.as_ptr().as_ref()` — `None`
exactly when the computed raw pointer is null. -/
def as_ref (selfAddr offset : Int) : Option Int :=
  if as_ptr selfAddr offset = 0 then none else some (as_ptr selfAddr offset)

end RelativeDirectPointer

namespace RelativeIndirectablePointer

/-- `RelativeIndirectablePointer::is_null`: `offset == 0`. -/
def is_null (offset : Int) : Bool := offset == 0

/-- `RelativeIndirectablePointer::is_indirect`: `offset & 1 != 0`. -/
def is_indirect (offset : Int) : Bool := offset.emod 2 != 0

/-- `RelativeIndirectablePointer::is_direct`: `!self.is_indirect()`. -/
def is_direct (offset : Int) : Bool := !is_indirect offset

/-- `offset as isize & !1`: the stored offset with its low bit cleared. -/
def masked (offset : Int) : Int := offset - offset.emod 2

/-- `RelativeIndirectablePointer::as_ref`: assert `align_of::<T>() >= 2`,
return `None` on a zero offset, else resolve
`&self as *const u8 + (offset & !1)` and dereference once more when the low
bit is set.  The result is the address of the referent. -/
def as_ref (load : Int → Int) (alignT : Nat) (selfAddr offset : Int) :
    Except String (Option Int) :=
  if alignT < 2 then
    .error "alignment of value must be at least 2 to make room for indirectable flag"
  else if is_null offset then .ok none
  else
    let address := selfAddr + masked offset
    if is_direct offset then .ok (some address)
    else .ok (some (load address))

end RelativeIndirectablePointer

namespace RelativeIndirectablePointerNonNull

/-- `RelativeIndirectablePointerNonNull::is_indirect`: `offset.get() & 1 != 0`. -/
def is_indirect (offset : Int) : Bool := offset.emod 2 != 0

/-- `RelativeIndirectablePointerNonNull::is_direct`: `!self.is_indirect()`. -/
def is_direct (offset : Int) : Bool := !is_indirect offset

/-- `RelativeIndirectablePointerNonNull::as_ref`: same as the nullable
variant but with no null check (the offset is a `NonZeroI32`). -/
def as_ref (load : Int → Int) (alignT : Nat) (selfAddr offset : Int) :
    Except String Int :=
  if alignT < 2 then
    .error "alignment of value must be at least 2 to make room for indirectable flag"
  else
    let address := selfAddr + RelativeIndirectablePointer.masked offset
    if is_direct offset then .ok address
    else .ok (load address)

end RelativeIndirectablePointerNonNull

/-! ## `ModuleContextDescriptor::name_eq`
(swift-sys/src/metadata/context_descriptor/module.rs, duplicated in
swift-rt/src/metadata/context_descriptor/module.rs)

Byte memory is a function `Nat → Nat` (byte at address); `nameAddr` is the
resolved name pointer.  The loop compares each byte of `cmp` and, after the
loop, checks the next name byte against `b'0'` (0x30) — exactly as the
source reads `*name == b'0'`. -/

namespace ModuleContextDescriptor

/-- The byte-comparison loop of `ModuleContextDescriptor::name_eq` followed
by its terminator check `*name == b'0'`. -/
def name_eq (mem : Nat → Nat) : Nat → List Nat → Bool
  | addr, [] => mem addr == 0x30
  | addr, b :: rest => if mem addr ≠ b then false else name_eq mem (addr + 1) rest

/-- `"Swift"` as bytes. -/
def swiftBytes : List Nat := [83, 119, 105, 102, 116]

/-- `ModuleContextDescriptor::is_swift`: `name_eq("Swift")`. -/
def is_swift (mem : Nat → Nat) (nameAddr : Nat) : Bool :=
  name_eq mem nameAddr swiftBytes

/-- What the documentation promises of `is_swift`: the NUL-terminated name
at `nameAddr` is exactly `"Swift"`. -/
def name_is_exactly (mem : Nat → Nat) (nameAddr : Nat) (s : List Nat) : Prop :=
  (∀ i : Fin s.length, mem (nameAddr + i.val) = s.get i) ∧ mem (nameAddr + s.length) = 0

end ModuleContextDescriptor

/-! ## `Mangled` length scan (swift-rt/src/mangling/mangled.rs)

The byte stream is a `List Nat`; `ptrSize` is `size_of::<*const c_void>()`.
The loop of `Mangled::len` reads the byte at the running index, stops on a
zero offset and otherwise advances by that offset.  The loop is modelled
with fuel; `mem.length + 1` iterations always suffice because the index
strictly increases while it stays within the list, and reading past the end
of the modelled buffer (unreachable for the well-formed streams of the
precondition) yields `none`. -/

namespace Mangled

/-- `Mangled::offset_of`: the offset to the next normal byte. -/
def offset_of (ptrSize : Nat) (byte : Nat) : Nat :=
  if byte = 0 then 0
  else if byte ≤ 0x17 then 1 + 4
  else if byte ≤ 0x1F then 1 + ptrSize
  else 1

/-- The loop of `Mangled::len`. -/
def lenAux (ptrSize : Nat) (mem : List Nat) : Nat → Nat → Option Nat
  | 0, _ => none
  | fuel + 1, len =>
    match mem.get? len with
    | none => none
    | some b =>
      let o := offset_of ptrSize b
      if o = 0 then some len else lenAux ptrSize mem fuel (len + o)

/-- `Mangled::len`: scan from index 0. -/
def len (ptrSize : Nat) (mem : List Nat) : Option Nat :=
  lenAux ptrSize mem (mem.length + 1) 0

end Mangled

/-! ## Context-descriptor parent chains (swift-rt/src/ctx_desc/base.rs)

The descriptor graph is modelled as a heap mapping an address to the
descriptor stored there, with the relative-pointer resolution of
`ContextDescriptor::parent` abstracted to its result: `none` for a null
parent pointer, `some p` for a parent resolved at address `p` (the claims
quantify over well-formed chains where every parent pointer resolves). -/

/-- A context descriptor as seen by the chain walkers: its flags word and
its resolved parent. -/
structure Desc where
  flags : Nat
  parent : Option Nat
deriving DecidableEq

/-- A descriptor heap: which descriptor, if any, lives at an address. -/
def Heap := Nat → Option Desc

namespace ContextDescriptor

/-- `ContextDescriptor::kind`: `flags.kind()`. -/
def kind (d : Desc) : Nat := ContextDescriptorFlags.kind d.flags

/-- `ContextDescriptor::as_module` succeeds exactly on kind `MODULE`;
at the heap level we only need the test. -/
def is_module (h : Heap) (a : Nat) : Bool :=
  match h a with
  | some d => kind d == ContextDescriptorKind.MODULE
  | none => false

/-- The sequence of addresses produced by `parent_iter`: each `next()`
returns `self.0.parent()?` and moves to it.  `fuel` bounds the walk (the
ABI contract promises termination; a malformed cycle is the caller's
error). -/
def parentChain (h : Heap) : Nat → Nat → List Nat
  | 0, _ => []
  | fuel + 1, a =>
    match (h a).bind Desc.parent with
    | none => []
    | some p => p :: parentChain h fuel p

/-- `ContextDescriptor::module_context`: walk from `self`, returning the
first descriptor whose kind is `MODULE`; running out of parents is the
`unreachable_unchecked` branch, modelled as `none`. -/
def module_context (h : Heap) : Nat → Nat → Option Nat
  | 0, _ => none
  | fuel + 1, a =>
    match h a with
    | none => none
    | some d =>
      if kind d == ContextDescriptorKind.MODULE then some a
      else
        match d.parent with
        | some p => module_context h fuel p
        | none => none

end ContextDescriptor

/-! ### Fixtures -/

/-- Byte memory holding the C string `"Swift"` (NUL-terminated) at address 0. -/
def swiftNameMem : Nat → Nat := fun i => [83, 119, 105, 102, 116, 0].getD i 0

/-- Byte memory holding the C string `"Swift0"` (NUL-terminated) at address 0. -/
def swift0NameMem : Nat → Nat := fun i => [83, 119, 105, 102, 116, 48, 0].getD i 0

/-- A three-level descriptor chain: a module at address 100 (kind `MODULE`,
no parent), an extension at 200 (kind `EXTENSION`, parent 100), and a leaf
struct descriptor at 300 (kind `STRUCT`, parent 200). -/
def threeLevelHeap : Heap := fun a =>
  if a = 100 then some ⟨ContextDescriptorKind.MODULE, none⟩
  else if a = 200 then some ⟨ContextDescriptorKind.EXTENSION, some 100⟩
  else if a = 300 then some ⟨ContextDescriptorKind.STRUCT, some 200⟩
  else none

end SwiftBindgen

namespace SwiftBindgen

/-! ## Shared lemmas -/

/-- Low-byte extraction is reduction modulo 256. -/
theorem and_255_eq_mod (bits : Nat) : bits &&& 0xFF = bits % 256 := by
  have h : (0xFF : Nat) = 2 ^ 8 - 1 := by norm_num
  rw [h, Nat.and_pow_two_sub_one_eq_mod]

/-- Setting bit 16 leaves the low byte unchanged. -/
theorem or_bit16_and_255 (bits : Nat) :
    (bits ||| 0x10000) &&& 0xFF = bits &&& 0xFF := by
  apply Nat.eq_of_testBit_eq
  intro i
  simp only [Nat.testBit_and, Nat.testBit_or]
  rcases Nat.lt_or_ge i 8 with h | h
  · have hz : (0x10000 : Nat).testBit i = false := by
      have h2 : (0x10000 : Nat) = 2 ^ 16 := by norm_num
      rw [h2, Nat.testBit_two_pow]
      simp
      omega
    simp [hz]
  · have hz : (0xFF : Nat).testBit i = false := by
      apply Nat.testBit_lt_two_pow
      calc (0xFF : Nat) < 2 ^ 8 := by norm_num
        _ ≤ 2 ^ i := Nat.pow_le_pow_right (by norm_num) h
    simp [hz]

/-- A word with bit 16 forced on intersects the bit-16 mask. -/
theorem or_bit16_and_bit16_ne (bits : Nat) :
    (bits ||| 0x10000) &&& 0x10000 ≠ 0 := by
  intro h
  have h16 : ((bits ||| 0x10000) &&& 0x10000).testBit 16 = false := by
    simp [h]
  have ht : (0x10000 : Nat).testBit 16 = true := by decide
  simp [Nat.testBit_and, Nat.testBit_or, ht] at h16

/-! ## Claims -/

/-- C1: the spec claims `is_swift()` (and its siblings) returns `true` iff
the descriptor's NUL-terminated name is exactly `"Swift"`.  The code's
`name_eq` instead compares the byte after the literal against `b'0'`
(0x30): on a descriptor whose name bytes are exactly `"Swift"` followed by
the NUL terminator, `is_swift` returns `false`, while a name beginning
`"Swift0"` makes it return `true`. -/
theorem is_swift_terminator_uses_ascii_zero :
    ModuleContextDescriptor.name_is_exactly swiftNameMem 0
        ModuleContextDescriptor.swiftBytes
      ∧ ModuleContextDescriptor.is_swift swiftNameMem 0 = false
      ∧ ¬ ModuleContextDescriptor.name_is_exactly swift0NameMem 0
        ModuleContextDescriptor.swiftBytes
      ∧ ModuleContextDescriptor.is_swift swift0NameMem 0 = true := by
  refine ⟨⟨by decide, by decide⟩, by decide, ?_, by decide⟩
  intro hx
  have h5 := hx.2
  simp [swift0NameMem, ModuleContextDescriptor.swiftBytes] at h5

/-- C7: the spec claims `ContextDescriptorFlags::new` round-trips each
component.  The code's `with_kind_specific_flags` masks with `0xFFFF0000`
(keeping the high half and clearing the low half) instead of `0x0000FFFF`,
so `new(STRUCT, true, false, 3, 0xBEEF)` produces the word `0xBEEF0000`:
the kind specific flags survive but kind, generic, unique and version are
all wiped to zero. -/
theorem ctx_desc_flags_new_wipes_low_half :
    ContextDescriptorFlags.new ContextDescriptorKind.STRUCT true false 3 0xBEEF
        = 0xBEEF0000
      ∧ ContextDescriptorFlags.kind
          (ContextDescriptorFlags.new ContextDescriptorKind.STRUCT true false 3 0xBEEF)
        = 0
      ∧ ContextDescriptorKind.STRUCT = 17
      ∧ ContextDescriptorFlags.is_generic
          (ContextDescriptorFlags.new ContextDescriptorKind.STRUCT true false 3 0xBEEF)
        = false
      ∧ ContextDescriptorFlags.version
          (ContextDescriptorFlags.new ContextDescriptorKind.STRUCT true false 3 0xBEEF)
        = 0
      ∧ ContextDescriptorFlags.kind_specific_flags
          (ContextDescriptorFlags.new ContextDescriptorKind.STRUCT true false 3 0xBEEF)
        = 0xBEEF := by
  refine ⟨by decide, by decide, by decide, by decide, by decide, by decide⟩

/-- C8: for every `ValueWitnessFlags` bit pattern, `align()` is
`align_mask() + 1` where `align_mask()` is the low 8 bits; `is_pod()` holds
iff the is-non-POD bit (0x10000) is clear; and setting that bit flips
`is_pod()` to `false` while leaving `align_mask()` and `align()`
unchanged.  A pattern whose mask decodes to 0x7 has `align() = 8`. -/
theorem value_witness_flags_decode (bits : Nat) :
    ValueWitnessFlags.align bits = ValueWitnessFlags.align_mask bits + 1
      ∧ ValueWitnessFlags.align_mask bits = bits % 256
      ∧ (ValueWitnessFlags.is_pod bits = true ↔ bits &&& 0x10000 = 0)
      ∧ (ValueWitnessFlags.align_mask bits = 0x7 → ValueWitnessFlags.align bits = 8)
      ∧ ValueWitnessFlags.is_pod (bits ||| 0x10000) = false
      ∧ ValueWitnessFlags.align_mask (bits ||| 0x10000) = ValueWitnessFlags.align_mask bits
      ∧ ValueWitnessFlags.align (bits ||| 0x10000) = ValueWitnessFlags.align bits := by
  have hmask := or_bit16_and_255 bits
  have hbit := or_bit16_and_bit16_ne bits
  refine ⟨rfl, and_255_eq_mod bits, ?_, ?_, ?_, ?_, ?_⟩
  · simp [ValueWitnessFlags.is_pod, ValueWitnessFlags.IsNonPOD]
  · intro h
    simp [ValueWitnessFlags.align, h]
  · simp [ValueWitnessFlags.is_pod, ValueWitnessFlags.IsNonPOD, hbit]
  · simp [ValueWitnessFlags.align_mask, ValueWitnessFlags.AlignmentMask, hmask]
  · simp [ValueWitnessFlags.align, ValueWitnessFlags.align_mask,
      ValueWitnessFlags.AlignmentMask, hmask]

/-- C8 witness: the decoded components at the concrete pattern `0x7`. -/
theorem value_witness_flags_decode_witness :
    ValueWitnessFlags.align 0x7 = 8 ∧ ValueWitnessFlags.is_pod (0x7 ||| 0x10000) = false := by
  have h := value_witness_flags_decode 0x7
  exact ⟨h.2.2.2.1 (by decide), h.2.2.2.2.1⟩

/-- C5: the leading metadata word is disambiguated purely by magnitude
against `MetadataKind::LAST = 0x7FF`: at or below it, `kind()` is the word
itself and `isa_ptr()` is null; above it, `kind()` is `CLASS` and
`isa_ptr()` is the word, so `isa_ptr()` is non-null iff the word exceeds
`LAST`. -/
theorem metadata_word_magnitude_dispatch (word : Nat) :
    (word ≤ MetadataKind.LAST → Metadata.kind word = word ∧ Metadata.isa_ptr word = 0)
      ∧ (word > MetadataKind.LAST →
          Metadata.kind word = MetadataKind.CLASS ∧ Metadata.isa_ptr word = word)
      ∧ (Metadata.isa_ptr word ≠ 0 ↔ word > MetadataKind.LAST) := by
  unfold Metadata.kind Metadata.isa_ptr MetadataKind.LAST MetadataKind.CLASS
  refine ⟨fun h => ?_, fun h => ?_, ?_⟩
  · simp [h, Nat.not_lt.mpr h]
  · rw [if_neg (by omega), if_pos h]
    exact ⟨rfl, rfl⟩
  · constructor
    · intro h
      by_cases hgt : word > 2047
      · exact hgt
      · exact absurd (if_neg hgt) h
    · intro h
      rw [if_pos h]
      omega

/-- C5 witness: both sides of the magnitude split at concrete words. -/
theorem metadata_word_magnitude_dispatch_witness :
    (Metadata.kind 0x201 = 0x201 ∧ Metadata.isa_ptr 0x201 = 0)
      ∧ (Metadata.kind 0x1000 = 0 ∧ Metadata.isa_ptr 0x1000 = 0x1000) := by
  exact ⟨(metadata_word_magnitude_dispatch 0x201).1 (by decide),
    (metadata_word_magnitude_dispatch 0x1000).2.1 (by decide)⟩

/-- C2: `value_witness_table_ptr(m)` is exactly `m` minus one pointer width
in bytes; and when the word there holds a non-null table pointer,
`enum_value_witnesses()` returns `some` of that same table address iff the
table's flags have `has_enum_witnesses`, and `none` otherwise. -/
theorem value_witness_table_location (ptrSize : Nat) (load : Int → Int)
    (flagsOf : Int → Nat) (m : Int) (hvalid : load (m - ptrSize) ≠ 0) :
    Metadata.value_witness_table_ptr ptrSize m = m - ptrSize
      ∧ (ValueWitnessFlags.has_enum_witnesses (flagsOf (load (m - ptrSize))) = true →
          Metadata.enum_value_witnesses ptrSize load flagsOf m = some (load (m - ptrSize)))
      ∧ (ValueWitnessFlags.has_enum_witnesses (flagsOf (load (m - ptrSize))) = false →
          Metadata.enum_value_witnesses ptrSize load flagsOf m = none) := by
  unfold Metadata.enum_value_witnesses Metadata.value_witness_table_ptr
  refine ⟨rfl, fun h => ?_, fun h => ?_⟩
  · simp [hvalid, h]
  · simp [hvalid, h]

/-- C2 witness: a table at address 4 preceding metadata at 16 on a 64-bit
target, with and without the enum-witness flag. -/
theorem value_witness_table_location_witness :
    Metadata.value_witness_table_ptr 8 16 = 8
      ∧ Metadata.enum_value_witnesses 8 (fun _ => 4) (fun _ => 0x200000) 16 = some 4
      ∧ Metadata.enum_value_witnesses 8 (fun _ => 4) (fun _ => 0) 16 = none := by
  refine ⟨(value_witness_table_location 8 (fun _ => 4) (fun _ => 0x200000) 16
      (by decide)).1, ?_, ?_⟩
  · exact (value_witness_table_location 8 (fun _ => 4) (fun _ => 0x200000) 16
      (by decide)).2.1 (by decide)
  · exact (value_witness_table_location 8 (fun _ => 4) (fun _ => 0) 16
      (by decide)).2.2 (by decide)

/-- C4: for every indirectable relative pointer, `is_direct` is the
negation of `is_indirect`; `is_indirect` holds iff the low bit of the
stored offset is 1; and (under the alignment precondition) `as_ref`
resolves the address `selfAddr + (offset & !1)` — the direct-case
arithmetic after masking — dereferencing it directly when direct and
through one extra load when indirect, in both the nullable and the
non-null variant. -/
theorem indirectable_pointer_resolution (load : Int → Int) (alignT : Nat)
    (selfAddr offset : Int) (halign : 2 ≤ alignT) :
    RelativeIndirectablePointer.is_direct offset
        = !RelativeIndirectablePointer.is_indirect offset
      ∧ (RelativeIndirectablePointer.is_indirect offset = true ↔ offset.emod 2 = 1)
      ∧ RelativeIndirectablePointerNonNull.is_direct offset
        = !RelativeIndirectablePointerNonNull.is_indirect offset
      ∧ RelativeIndirectablePointer.masked offset = offset - offset.emod 2
      ∧ (offset ≠ 0 →
          RelativeIndirectablePointer.as_ref load alignT selfAddr offset
            = .ok (some (if RelativeIndirectablePointer.is_indirect offset
                then load (selfAddr + RelativeIndirectablePointer.masked offset)
                else selfAddr + RelativeIndirectablePointer.masked offset)))
      ∧ RelativeIndirectablePointerNonNull.as_ref load alignT selfAddr offset
        = .ok (if RelativeIndirectablePointerNonNull.is_indirect offset
            then load (selfAddr + RelativeIndirectablePointer.masked offset)
            else selfAddr + RelativeIndirectablePointer.masked offset) := by
  have hnlt : ¬ alignT < 2 := by omega
  have hm2 : offset.emod 2 = 0 ∨ offset.emod 2 = 1 := Int.emod_two_eq_zero_or_one offset
  refine ⟨rfl, ?_, rfl, rfl, fun hz => ?_, ?_⟩
  · unfold RelativeIndirectablePointer.is_indirect
    rcases hm2 with h | h <;> simp [h]
  · unfold RelativeIndirectablePointer.as_ref RelativeIndirectablePointer.is_null
      RelativeIndirectablePointer.is_direct
    rw [if_neg hnlt, if_neg (by simpa using hz)]
    by_cases hi : RelativeIndirectablePointer.is_indirect offset <;> simp [hi]
  · unfold RelativeIndirectablePointerNonNull.as_ref
      RelativeIndirectablePointerNonNull.is_direct
    rw [if_neg hnlt]
    by_cases hi : RelativeIndirectablePointerNonNull.is_indirect offset <;> simp [hi]

/-- C4 witness: pointer at address 1000 with offset 5 (indirect, masked to
4) resolved through a memory where the word at 1004 holds 7777. -/
theorem indirectable_pointer_resolution_witness :
    RelativeIndirectablePointer.is_indirect 5 = true
      ∧ RelativeIndirectablePointer.as_ref (fun a => if a = 1004 then 7777 else 0) 4 1000 5
        = .ok (some 7777)
      ∧ RelativeIndirectablePointerNonNull.as_ref (fun a => if a = 1004 then 7777 else 0) 4 1000 5
        = .ok 7777 := by
  have h := indirectable_pointer_resolution (fun a => if a = 1004 then 7777 else 0)
    4 1000 5 (by decide)
  refine ⟨h.2.1.mpr (by decide), ?_, ?_⟩
  · rw [h.2.2.2.2.1 (by decide)]
    norm_num [RelativeIndirectablePointer.is_indirect, RelativeIndirectablePointer.masked]
  · rw [h.2.2.2.2.2]
    norm_num [RelativeIndirectablePointerNonNull.is_indirect,
      RelativeIndirectablePointer.masked]

/-- C9: for a stored offset of 0, `is_null()` is true, the direct variant's
`as_ptr()` is the null pointer and both variants' `as_ref()` return
absence; for a non-zero offset `is_null()` is false and resolution is a
pure function of the storage address and offset, so resolving twice from
the same storage address yields the same target. -/
theorem nullable_pointer_zero_offset (load : Int → Int) (alignT : Nat)
    (selfAddr offset : Int) (halign : 2 ≤ alignT) :
    RelativeDirectPointer.is_null 0 = true
      ∧ RelativeDirectPointer.as_ptr selfAddr 0 = 0
      ∧ RelativeDirectPointer.as_ref selfAddr 0 = none
      ∧ RelativeIndirectablePointer.is_null 0 = true
      ∧ RelativeIndirectablePointer.as_ref load alignT selfAddr 0 = .ok none
      ∧ (offset ≠ 0 → RelativeDirectPointer.is_null offset = false
          ∧ RelativeIndirectablePointer.is_null offset = false)
      ∧ RelativeDirectPointer.as_ptr selfAddr offset
        = RelativeDirectPointer.as_ptr selfAddr offset
      ∧ RelativeIndirectablePointer.as_ref load alignT selfAddr offset
        = RelativeIndirectablePointer.as_ref load alignT selfAddr offset := by
  have hnlt : ¬ alignT < 2 := by omega
  refine ⟨rfl, rfl, rfl, rfl, ?_, fun hz => ?_, rfl, rfl⟩
  · unfold RelativeIndirectablePointer.as_ref
    rw [if_neg hnlt]
    rfl
  · constructor
    · simp [RelativeDirectPointer.is_null, hz]
    · simp [RelativeIndirectablePointer.is_null, hz]

/-- C9 witness: the zero-offset behavior at a concrete storage address and
the non-null test at offset 12. -/
theorem nullable_pointer_zero_offset_witness :
    RelativeDirectPointer.as_ref 500 0 = none
      ∧ RelativeIndirectablePointer.as_ref (fun _ => 9) 4 500 0 = .ok none
      ∧ RelativeDirectPointer.is_null 12 = false := by
  have h := nullable_pointer_zero_offset (fun _ => 9) 4 500 12 (by decide)
  exact ⟨h.2.2.1, h.2.2.2.2.1, (h.2.2.2.2.2.1 (by decide)).1⟩

/-- C10: both indirectable `as_ref` implementations begin with an
unconditional `assert!(align_of::<T>() >= 2)`: for a pointee alignment
below 2 every call panics (modelled as `Except.error` with the assertion
message) whatever the stored offset, and for alignment at least 2 the
assertion never fires and resolution always proceeds to the address
computation (an `Except.ok` result). -/
theorem indirectable_alignment_assert (load : Int → Int) (alignT : Nat)
    (selfAddr offset : Int) :
    (alignT < 2 →
      RelativeIndirectablePointer.as_ref load alignT selfAddr offset
          = .error "alignment of value must be at least 2 to make room for indirectable flag"
        ∧ RelativeIndirectablePointerNonNull.as_ref load alignT selfAddr offset
          = .error "alignment of value must be at least 2 to make room for indirectable flag")
      ∧ (2 ≤ alignT →
        (∃ r, RelativeIndirectablePointer.as_ref load alignT selfAddr offset = .ok r)
          ∧ (∃ r, RelativeIndirectablePointerNonNull.as_ref load alignT selfAddr offset
              = .ok r)) := by
  refine ⟨fun h => ⟨?_, ?_⟩, fun h => ⟨?_, ?_⟩⟩
  · unfold RelativeIndirectablePointer.as_ref
    rw [if_pos h]
  · unfold RelativeIndirectablePointerNonNull.as_ref
    rw [if_pos h]
  · unfold RelativeIndirectablePointer.as_ref
    rw [if_neg (by omega)]
    by_cases hn : RelativeIndirectablePointer.is_null offset
      <;> by_cases hd : RelativeIndirectablePointer.is_direct offset
      <;> simp [hn, hd]
  · unfold RelativeIndirectablePointerNonNull.as_ref
    rw [if_neg (by omega)]
    by_cases hd : RelativeIndirectablePointerNonNull.is_direct offset <;> simp [hd]

/-- C10 witness: a byte-aligned pointee panics at every offset tried, a
word-aligned one resolves. -/
theorem indirectable_alignment_assert_witness :
    RelativeIndirectablePointer.as_ref (fun _ => 9) 1 500 6
        = .error "alignment of value must be at least 2 to make room for indirectable flag"
      ∧ (∃ r, RelativeIndirectablePointerNonNull.as_ref (fun _ => 9) 8 500 6 = .ok r) := by
  exact ⟨((indirectable_alignment_assert (fun _ => 9) 1 500 6).1 (by decide)).1,
    ((indirectable_alignment_assert (fun _ => 9) 8 500 6).2 (by decide)).2⟩

/-- A non-zero byte always advances the scan. -/
theorem offset_of_ne_zero (ptrSize b : Nat) (hb : b ≠ 0) :
    Mangled.offset_of ptrSize b ≠ 0 := by
  unfold Mangled.offset_of
  rw [if_neg hb]
  split_ifs <;> omega

/-- C3: `Mangled::len` scans from byte 0, stopping on a 0 byte with the
accumulated length, advancing by `1 + 4` over `0x01..=0x17`, by
`1 + ptrSize` over `0x18..=0x1F` and by 1 otherwise; on a 64-bit target the
buffers `[a, b, 0]`, `[0x05, 0,0,0,0, 0]` and `[0x18, 0×8, 0]` measure 2,
5 and 9. -/
theorem mangled_len_scan :
    Mangled.len 8 [97, 98, 0] = some 2
      ∧ Mangled.len 8 [0x05, 0, 0, 0, 0, 0] = some 5
      ∧ Mangled.len 8 [0x18, 0, 0, 0, 0, 0, 0, 0, 0, 0] = some 9
      ∧ (∀ ptrSize, Mangled.offset_of ptrSize 0 = 0)
      ∧ (∀ ptrSize b, 1 ≤ b → b ≤ 0x17 → Mangled.offset_of ptrSize b = 1 + 4)
      ∧ (∀ ptrSize b, 0x18 ≤ b → b ≤ 0x1F → Mangled.offset_of ptrSize b = 1 + ptrSize)
      ∧ (∀ ptrSize b, 0x20 ≤ b → Mangled.offset_of ptrSize b = 1)
      ∧ (∀ ptrSize (mem : List Nat) fuel idx, mem.get? idx = some 0 →
          Mangled.lenAux ptrSize mem (fuel + 1) idx = some idx)
      ∧ (∀ ptrSize (mem : List Nat) fuel idx b, mem.get? idx = some b → b ≠ 0 →
          Mangled.lenAux ptrSize mem (fuel + 1) idx
            = Mangled.lenAux ptrSize mem fuel (idx + Mangled.offset_of ptrSize b)) := by
  refine ⟨by decide, by decide, by decide, ?_, ?_, ?_, ?_, ?_, ?_⟩
  · intro ptrSize
    simp [Mangled.offset_of]
  · intro ptrSize b h1 h2
    unfold Mangled.offset_of
    rw [if_neg (by omega), if_pos h2]
  · intro ptrSize b h1 h2
    unfold Mangled.offset_of
    rw [if_neg (by omega), if_neg (by omega), if_pos h2]
  · intro ptrSize b h1
    unfold Mangled.offset_of
    rw [if_neg (by omega), if_neg (by omega), if_neg (by omega)]
  · intro ptrSize mem fuel idx h
    simp only [Mangled.lenAux, h]
    simp [Mangled.offset_of]
  · intro ptrSize mem fuel idx b h hb
    simp only [Mangled.lenAux, h]
    rw [if_neg (offset_of_ne_zero ptrSize b hb)]

/-- C3 witness: the stop and step cases exercised on the second example
buffer. -/
theorem mangled_len_scan_witness :
    Mangled.lenAux 8 [5, 0, 0, 0, 0, 0] 7 0 = Mangled.lenAux 8 [5, 0, 0, 0, 0, 0] 6 5
      ∧ Mangled.lenAux 8 [5, 0, 0, 0, 0, 0] 6 5 = some 5
      ∧ Mangled.offset_of 8 5 = 5 := by
  refine ⟨?_, ?_, mangled_len_scan.2.2.2.2.1 8 5 (by decide) (by decide)⟩
  · have h := mangled_len_scan.2.2.2.2.2.2.2.2 8 [5, 0, 0, 0, 0, 0] 6 0 5
      (by decide) (by decide)
    simpa [Mangled.offset_of] using h
  · exact mangled_len_scan.2.2.2.2.2.2.2.1 8 [5, 0, 0, 0, 0, 0] 5 5 (by decide)

/-- C6: `parent_iter` emits exactly the proper ancestors in order — one
step per resolved parent pointer, ending when a descriptor has no parent —
and `module_context` returns the first descriptor in the chain starting
from `self` whose kind is `MODULE`.  On the three-level fixture
Module(100) ← Extension(200) ← leaf(300), the leaf's chain is
`[200, 100]` (length 2) and its module context is the module node. -/
theorem parent_chain_walk :
    (∀ (h : Heap) (fuel a : Nat),
      ContextDescriptor.module_context h (fuel + 1) a
        = (a :: ContextDescriptor.parentChain h fuel a).find?
            (ContextDescriptor.is_module h))
      ∧ (∀ (h : Heap) (fuel a p : Nat), (h a).bind Desc.parent = some p →
          ContextDescriptor.parentChain h (fuel + 1) a
            = p :: ContextDescriptor.parentChain h fuel p)
      ∧ (∀ (h : Heap) (fuel a : Nat), (h a).bind Desc.parent = none →
          ContextDescriptor.parentChain h (fuel + 1) a = [])
      ∧ ContextDescriptor.parentChain threeLevelHeap 10 300 = [200, 100]
      ∧ (ContextDescriptor.parentChain threeLevelHeap 10 300).length = 2
      ∧ ContextDescriptor.module_context threeLevelHeap 10 300 = some 100 := by
  refine ⟨?_, ?_, ?_, by decide, by decide, by decide⟩
  · intro h fuel
    induction fuel with
    | zero =>
      intro a
      rw [ContextDescriptor.module_context, ContextDescriptor.parentChain]
      cases hha : h a with
      | none => simp [ContextDescriptor.is_module, hha, List.find?]
      | some d =>
        by_cases hk : ContextDescriptor.kind d == ContextDescriptorKind.MODULE
        · simp [ContextDescriptor.is_module, hha, hk, List.find?]
        · cases hp : d.parent <;>
            simp [ContextDescriptor.is_module, hha, hk, hp, List.find?,
              ContextDescriptor.module_context]
    | succ f ih =>
      intro a
      rw [ContextDescriptor.module_context, ContextDescriptor.parentChain]
      cases hha : h a with
      | none => simp [ContextDescriptor.is_module, hha, List.find?]
      | some d =>
        by_cases hk : ContextDescriptor.kind d == ContextDescriptorKind.MODULE
        · simp [ContextDescriptor.is_module, hha, hk, List.find?]
        · cases hp : d.parent with
          | none => simp [ContextDescriptor.is_module, hha, hk, hp, List.find?]
          | some p =>
            simp only [hha, hk, hp, Option.some_bind]
            rw [ih p]
            simp [List.find?, ContextDescriptor.is_module, hha, hk]
  · intro h fuel a p hp
    simp [ContextDescriptor.parentChain, hp]
  · intro h fuel a hp
    simp [ContextDescriptor.parentChain, hp]

/-- C6 witness: the chain-step equations exercised on the fixture's leaf
and module nodes. -/
theorem parent_chain_walk_witness :
    ContextDescriptor.parentChain threeLevelHeap 4 300
        = 200 :: ContextDescriptor.parentChain threeLevelHeap 3 200
      ∧ ContextDescriptor.parentChain threeLevelHeap 4 100 = []
      ∧ ContextDescriptor.module_context threeLevelHeap 4 300
        = (300 :: ContextDescriptor.parentChain threeLevelHeap 3 300).find?
            (ContextDescriptor.is_module threeLevelHeap) := by
  exact ⟨parent_chain_walk.2.1 threeLevelHeap 3 300 200 (by decide),
    parent_chain_walk.2.2.1 threeLevelHeap 3 100 (by decide),
    parent_chain_walk.1 threeLevelHeap 3 300⟩

end SwiftBindgen
